import Mathlib

/-!
Verification of the device-bound authentication and session-lifecycle policy
engine of the ios-messages-generator repository.

The definitions below are a shallow embedding of the TypeScript sources:
`server/accessRules.ts` (pure access decisions), `server/cleanupExpired.ts`
(bulk expiry cleanup) and the route handlers of `server/index.ts` (login
device binding, admin user/session lifecycle, audit logging). Timestamps are
modelled as integers (the millisecond value returned by `Date.getTime`),
JavaScript nullable strings as `Option String`, and the relational store as
lists of rows.
-/

namespace IMG

/-! ### server/accessRules.ts -/

/-- Cyrillic message constant `ACCOUNT_EXPIRED_MESSAGE` from accessRules.ts. -/
def ACCOUNT_EXPIRED_MESSAGE : String := "Срок действия аккаунта истек"

/-- Cyrillic message constant `DEVICE_IN_USE_MESSAGE` from accessRules.ts. -/
def DEVICE_IN_USE_MESSAGE : String := "Этот аккаунт уже используется на другом устройстве"

/-- Result record of the access policy, mirroring `AccessDecision` in
accessRules.ts (`message` is an optional field). Statuses are kept as plain
naturals. -/
structure AccessDecision where
  ok : Bool
  shouldBindDevice : Bool
  status : Nat
  message : Option String := none
deriving DecidableEq, Repr

/-- The JavaScript value passed as `expiresAt` (`string | Date | null |
undefined`). A string carries whether it is empty (the only falsy string) and
the result of `new Date(s).getTime()` (`none` encodes NaN, an invalid date);
a `Date` object is always truthy and carries its `getTime` value (`none`
again encoding an invalid date). -/
inductive ExpiresAtInput where
  | nullish : ExpiresAtInput
  | str : Bool → Option Int → ExpiresAtInput
  | date : Option Int → ExpiresAtInput
deriving DecidableEq, Repr

/-- Embedding of `parseExpiry` (accessRules.ts lines 15-20): falsy input
(null, undefined, empty string) gives null; an unparseable date (NaN
`getTime`) gives null; otherwise the parsed date. We return the `getTime`
value directly since every later use compares times. -/
def parseExpiry : ExpiresAtInput → Option Int
  | .nullish => none
  | .str isEmpty parsed => if isEmpty then none else parsed
  | .date time => time

/-- Embedding of `isExpiredAt` (accessRules.ts lines 22-29): unparseable or
absent expiry is never expired; otherwise expired iff the parsed time is
`<=` now. -/
def isExpiredAt (expiresAt : ExpiresAtInput) (now : Int) : Bool :=
  match parseExpiry expiresAt with
  | none => false
  | some t => t ≤ now

/-- JavaScript truthiness test `!params.userDeviceId` on a `string | null`
value: null and the empty string are falsy. -/
def isFalsyDeviceId : Option String → Bool
  | none => true
  | some d => d = ""

/-- Input record of `evaluateDeviceAccess`. The source signature takes
`userDeviceId: string | null`, `requestDeviceId: string`,
`expiresAt: string | Date | null` and an optional `now` (here required,
since the embedding is deterministic). The source takes no role input. -/
structure EvaluateParams where
  userDeviceId : Option String
  requestDeviceId : String
  expiresAt : ExpiresAtInput
  now : Int
deriving DecidableEq, Repr

/-- Embedding of `evaluateDeviceAccess` (accessRules.ts lines 31-70), branch
for branch: expiry first, then unset binding, then matching binding, then
the device-in-use rejection. -/
def evaluateDeviceAccess (p : EvaluateParams) : AccessDecision :=
  if isExpiredAt p.expiresAt p.now then
    { ok := false, shouldBindDevice := false, status := 410,
      message := some ACCOUNT_EXPIRED_MESSAGE }
  else if isFalsyDeviceId p.userDeviceId then
    { ok := true, shouldBindDevice := true, status := 200 }
  else if p.userDeviceId = some p.requestDeviceId then
    { ok := true, shouldBindDevice := false, status := 200 }
  else
    { ok := false, shouldBindDevice := false, status := 403,
      message := some DEVICE_IN_USE_MESSAGE }

/-! ### Claims C1, C2, C3, C10 (the pure access policy) -/

/-- C1: the claim says an admin account never receives a 403 device-mismatch
decision during Login. The login route (server/index.ts lines 947-954)
delegates the decision to `evaluateDeviceAccess`, passing the role, but
`evaluateDeviceAccess` has no role parameter and no admin branch: evaluated
at a non-expired admin bound to device-A logging in from device-B — the
exact input of the repository unit test "allows admin login from different
device", which expects ok and status 200 — it returns the 403 DEVICE_IN_USE
decision. -/
theorem admin_login_from_second_device_returns_403 :
    evaluateDeviceAccess
      { userDeviceId := some "device-A", requestDeviceId := "device-B",
        expiresAt := .nullish, now := 0 } =
      { ok := false, shouldBindDevice := false, status := 403,
        message := some DEVICE_IN_USE_MESSAGE } := by
  rfl

/-- C2: whenever the expiry input parses to a timestamp `e` with `e ≤ now`,
`evaluateDeviceAccess` returns the 410 ACCOUNT_EXPIRED decision, for every
device configuration; the expiry test is the first branch, so it dominates
even a matching device. -/
theorem expiry_dominates_device_checks (p : EvaluateParams) (e : Int)
    (hp : parseExpiry p.expiresAt = some e) (he : e ≤ p.now) :
    evaluateDeviceAccess p =
      { ok := false, shouldBindDevice := false, status := 410,
        message := some ACCOUNT_EXPIRED_MESSAGE } := by
  have hx : isExpiredAt p.expiresAt p.now = true := by
    unfold isExpiredAt
    rw [hp]
    exact decide_eq_true he
  unfold evaluateDeviceAccess
  rw [hx]
  rfl

/-- Witness for C2: a bound, matching device with expiry 5 at time 7 is
still rejected with 410. -/
theorem expiry_dominates_device_checks_witness :
    evaluateDeviceAccess
      { userDeviceId := some "device-A", requestDeviceId := "device-A",
        expiresAt := .str false (some 5), now := 7 } =
      { ok := false, shouldBindDevice := false, status := 410,
        message := some ACCOUNT_EXPIRED_MESSAGE } :=
  expiry_dominates_device_checks _ 5 rfl (by decide)

/-- C3: for a non-expired account the decision is exactly: bind when the
stored device is null/unset (JavaScript-falsy: null or the empty string),
plain success when the stored device equals the requesting device, and the
403 DEVICE_IN_USE rejection in every other case. -/
theorem non_expired_device_trichotomy (p : EvaluateParams)
    (hne : isExpiredAt p.expiresAt p.now = false) :
    (isFalsyDeviceId p.userDeviceId = true →
      evaluateDeviceAccess p =
        { ok := true, shouldBindDevice := true, status := 200 }) ∧
    (∀ d : String, p.userDeviceId = some d → d ≠ "" → d = p.requestDeviceId →
      evaluateDeviceAccess p =
        { ok := true, shouldBindDevice := false, status := 200 }) ∧
    (∀ d : String, p.userDeviceId = some d → d ≠ "" → d ≠ p.requestDeviceId →
      evaluateDeviceAccess p =
        { ok := false, shouldBindDevice := false, status := 403,
          message := some DEVICE_IN_USE_MESSAGE }) := by
  refine ⟨?_, ?_, ?_⟩
  · intro hf
    unfold evaluateDeviceAccess
    rw [hne, hf]
    rfl
  · intro d hd hne' heq
    have hf : isFalsyDeviceId p.userDeviceId = false := by
      rw [hd]
      simpa [isFalsyDeviceId] using hne'
    have hmatch : p.userDeviceId = some p.requestDeviceId := by
      rw [hd, heq]
    unfold evaluateDeviceAccess
    rw [hne, hf]
    simp [hmatch]
  · intro d hd hne' hneq
    have hf : isFalsyDeviceId p.userDeviceId = false := by
      rw [hd]
      simpa [isFalsyDeviceId] using hne'
    have hmatch : ¬ p.userDeviceId = some p.requestDeviceId := by
      rw [hd]
      intro hcontra
      exact hneq (Option.some.inj hcontra)
    unfold evaluateDeviceAccess
    rw [hne, hf]
    simp [hmatch]

/-- Witness for C3: with no expiry at time 0, an unbound account binds, a
matching bound account passes, and a different bound account is rejected. -/
theorem non_expired_device_trichotomy_witness :
    evaluateDeviceAccess
      { userDeviceId := none, requestDeviceId := "A",
        expiresAt := .nullish, now := 0 } =
      { ok := true, shouldBindDevice := true, status := 200 } ∧
    evaluateDeviceAccess
      { userDeviceId := some "A", requestDeviceId := "A",
        expiresAt := .nullish, now := 0 } =
      { ok := true, shouldBindDevice := false, status := 200 } ∧
    evaluateDeviceAccess
      { userDeviceId := some "A", requestDeviceId := "B",
        expiresAt := .nullish, now := 0 } =
      { ok := false, shouldBindDevice := false, status := 403,
        message := some DEVICE_IN_USE_MESSAGE } :=
  ⟨(non_expired_device_trichotomy
      { userDeviceId := none, requestDeviceId := "A",
        expiresAt := .nullish, now := 0 } rfl).1 rfl,
   (non_expired_device_trichotomy
      { userDeviceId := some "A", requestDeviceId := "A",
        expiresAt := .nullish, now := 0 } rfl).2.1 "A" rfl (by decide) rfl,
   (non_expired_device_trichotomy
      { userDeviceId := some "A", requestDeviceId := "B",
        expiresAt := .nullish, now := 0 } rfl).2.2 "A" rfl (by decide) (by decide)⟩

/-- C10: a non-null expiry input whose date parse is NaN is treated by
`parseExpiry` as null, so `isExpiredAt` is false at every time and
`evaluateDeviceAccess` can never return status 410 for that input: a
malformed expiry value silently grants unbounded validity. -/
theorem malformed_expiry_grants_unbounded_validity (input : ExpiresAtInput)
    (_hnn : input ≠ .nullish) (hbad : parseExpiry input = none) :
    (∀ now : Int, isExpiredAt input now = false) ∧
    (∀ (u : Option String) (r : String) (now : Int),
      (evaluateDeviceAccess
        { userDeviceId := u, requestDeviceId := r,
          expiresAt := input, now := now }).status ≠ 410) := by
  have hnotexp : ∀ now : Int, isExpiredAt input now = false := by
    intro now
    unfold isExpiredAt
    rw [hbad]
  refine ⟨hnotexp, ?_⟩
  intro u r now
  unfold evaluateDeviceAccess
  rw [hnotexp now]
  by_cases hf : isFalsyDeviceId u = true
  · simp [hf]
  · simp only [Bool.not_eq_true] at hf
    by_cases hm : u = some r
    · subst hm
      simp [hf]
    · simp [hf, hm]

/-- Witness for C10: the string input that parses to NaN (for instance
"not-a-date") is non-null, never expired, and never yields 410. -/
theorem malformed_expiry_grants_unbounded_validity_witness :
    isExpiredAt (.str false none) 1000000 = false ∧
    (evaluateDeviceAccess
      { userDeviceId := some "A", requestDeviceId := "A",
        expiresAt := .str false none, now := 1000000 }).status ≠ 410 :=
  ⟨(malformed_expiry_grants_unbounded_validity (.str false none)
      (by decide) rfl).1 1000000,
   (malformed_expiry_grants_unbounded_validity (.str false none)
      (by decide) rfl).2 (some "A") "A" 1000000⟩

/-! ### Relational store model: users, sessions, admin_actions
(migrations/001_create_auth_tables.sql, server/index.ts) -/

/-- Role enum from server/auth.ts (`UserRole = "admin" | "user"`). -/
inductive Role where
  | admin : Role
  | user : Role
deriving DecidableEq, Repr

/-- Row of the users table (`UserRow` in server/index.ts). -/
structure UserRow where
  id : Nat
  login : String
  password_hash : String
  role : Role
  device_id : Option String
  expires_at : Option Int
  created_at : Int
deriving DecidableEq, Repr

/-- Row of the sessions table. -/
structure SessionRow where
  id : Nat
  user_id : Nat
  device_id : String
  ip : Option String
  user_agent : Option String
  login_time : Int
  last_seen : Int
  is_active : Bool
deriving DecidableEq, Repr

/-- Row of the admin_actions audit table. -/
structure AdminActionRow where
  admin_user_id : Option Nat
  action : String
  target_user_id : Option Nat
  notes : Option String
  created_at : Int
deriving DecidableEq, Repr

/-- The relational store as lists of rows. -/
structure DB where
  users : List UserRow
  sessions : List SessionRow
  admin_actions : List AdminActionRow
deriving DecidableEq, Repr

/-- Insert-time check of the `REFERENCES users(id)` constraints declared on
admin_actions in migrations/001_create_auth_tables.sql (staged in the
repository sources): a nullable user reference is insertable only when it is
null or names an existing users row. -/
def fkUserOk (db : DB) : Option Nat → Bool
  | none => true
  | some uid => db.users.any (fun u => u.id == uid)

/-- Embedding of `logAdminAction` (server/index.ts lines 216-236) together
with the INSERT semantics fixed by the admin_actions DDL of
migrations/001_create_auth_tables.sql: both `admin_user_id INTEGER
REFERENCES users(id) ON DELETE SET NULL` and `target_user_id INTEGER
REFERENCES users(id) ON DELETE SET NULL` are enforced at insert time, so an
INSERT naming a missing users row violates the constraint and fails;
`logAdminAction` wraps the INSERT in try/catch and swallows any failure,
leaving the table unchanged. -/
def logAdminAction (db : DB) (now : Int) (adminUserId : Nat) (action : String)
    (targetUserId : Option Nat) (notes : Option String) : DB :=
  if fkUserOk db (some adminUserId) && fkUserOk db targetUserId then
    { db with admin_actions := db.admin_actions ++
        [{ admin_user_id := some adminUserId, action := action,
           target_user_id := targetUserId, notes := notes, created_at := now }] }
  else db

lemma logAdminAction_users (db : DB) (now : Int) (adminUserId : Nat)
    (action : String) (targetUserId : Option Nat) (notes : Option String) :
    (logAdminAction db now adminUserId action targetUserId notes).users =
      db.users := by
  unfold logAdminAction
  split <;> rfl

lemma logAdminAction_sessions (db : DB) (now : Int) (adminUserId : Nat)
    (action : String) (targetUserId : Option Nat) (notes : Option String) :
    (logAdminAction db now adminUserId action targetUserId notes).sessions =
      db.sessions := by
  unfold logAdminAction
  split <;> rfl

/-! ### Claim C4: month-based expiry extension -/

/-- Embedding of the base of the month-mode SQL expression of
POST /admin/users/:id/extend (server/index.ts line 1273):
`GREATEST(COALESCE(expires_at, NOW()), NOW())`. -/
def extendMonthsBase (expires_at : Option Int) (now : Int) : Int :=
  max (expires_at.getD now) now

/-- The full month-mode update expression
`GREATEST(COALESCE(expires_at, NOW()), NOW()) + make_interval(months => m)`.
Calendar month addition is performed by the storage collaborator and is
abstracted as the `addMonths` argument. -/
def extendMonthsNewExpiry (addMonths : Int → Nat → Int)
    (expires_at : Option Int) (now : Int) (months : Nat) : Int :=
  addMonths (extendMonthsBase expires_at now) months

/-- C4: the month mode of extendExpiry counts the months from
max(currentExpiry, now): a still-future expiry is extended from that expiry,
while a lapsed or null expiry is extended from now, never from the stale
past value. -/
theorem extend_months_counts_from_max (addMonths : Int → Nat → Int)
    (now : Int) (months : Nat) :
    (∀ c : Int, now ≤ c →
      extendMonthsNewExpiry addMonths (some c) now months = addMonths c months) ∧
    (∀ c : Int, c ≤ now →
      extendMonthsNewExpiry addMonths (some c) now months = addMonths now months) ∧
    extendMonthsNewExpiry addMonths none now months = addMonths now months := by
  refine ⟨?_, ?_, ?_⟩
  · intro c h
    unfold extendMonthsNewExpiry extendMonthsBase
    rw [Option.getD_some, max_eq_left h]
  · intro c h
    unfold extendMonthsNewExpiry extendMonthsBase
    rw [Option.getD_some, max_eq_right h]
  · unfold extendMonthsNewExpiry extendMonthsBase
    rw [Option.getD_none, max_self]

/-- Witness for C4: with addMonths instantiated as plain addition of the
month count, a future expiry 100 at now 50 becomes 103, while a lapsed
expiry 20 and a null expiry both become 53. -/
theorem extend_months_counts_from_max_witness :
    extendMonthsNewExpiry (fun t m => t + (m : Int)) (some 100) 50 3 = 103 ∧
    extendMonthsNewExpiry (fun t m => t + (m : Int)) (some 20) 50 3 = 53 ∧
    extendMonthsNewExpiry (fun t m => t + (m : Int)) none 50 3 = 53 :=
  ⟨by rw [(extend_months_counts_from_max (fun t m => t + (m : Int)) 50 3).1
      100 (by decide)]; decide,
   by rw [(extend_months_counts_from_max (fun t m => t + (m : Int)) 50 3).2.1
      20 (by decide)]; decide,
   by rw [(extend_months_counts_from_max (fun t m => t + (m : Int)) 50 3).2.2]; decide⟩

/-! ### Claim C5: the delete_user audit row -/

/-- Embedding of DELETE /admin/users/:id (server/index.ts lines 1200-1231)
under the migration DDL: deleting the users row removes its sessions
(`sessions.user_id ... ON DELETE CASCADE`) and nulls any references to it in
existing admin_actions rows (`... ON DELETE SET NULL`); 404 when no row
matched; then the route logs action "delete_user" passing the deleted id as
targetUserId and no notes. -/
def deleteUserRoute (db : DB) (now : Int) (adminUserId : Nat) (userId : Nat) :
    Nat × DB :=
  if db.users.any (fun u => u.id == userId) then
    let db1 : DB :=
      { users := db.users.filter (fun u => !(u.id == userId)),
        sessions := db.sessions.filter (fun s => !(s.user_id == userId)),
        admin_actions := db.admin_actions.map (fun a =>
          { a with
            admin_user_id :=
              if a.admin_user_id == some userId then none else a.admin_user_id,
            target_user_id :=
              if a.target_user_id == some userId then none
              else a.target_user_id }) }
    (200, logAdminAction db1 now adminUserId "delete_user" (some userId) none)
  else (404, db)

/-- Store with admin 1 and plain user 42 (one active session), used to
evaluate deleteUser(42). -/
def deleteUserSampleDb : DB :=
  { users := [
      { id := 1, login := "root", password_hash := "h1", role := .admin,
        device_id := none, expires_at := none, created_at := 0 },
      { id := 42, login := "kate", password_hash := "h2", role := .user,
        device_id := some "device-A", expires_at := none, created_at := 0 }],
    sessions := [
      { id := 7, user_id := 42, device_id := "device-A", ip := none,
        user_agent := none, login_time := 0, last_seen := 0,
        is_active := true }],
    admin_actions := [] }

/-- C5: evaluating deleteUser(42) on the sample store deletes the row and its
session, but the audit insert names the already-deleted user 42 as
target_user_id and carries no notes, so it violates the target foreign key,
the swallowed failure leaves admin_actions empty, and no delete_user row
with a null target and notes containing "deleted_user_id=42" survives. -/
theorem delete_user_audit_row_is_lost :
    (deleteUserRoute deleteUserSampleDb 5 1 42).1 = 200 ∧
    ((deleteUserRoute deleteUserSampleDb 5 1 42).2.users.map UserRow.id) = [1] ∧
    (deleteUserRoute deleteUserSampleDb 5 1 42).2.sessions = [] ∧
    (deleteUserRoute deleteUserSampleDb 5 1 42).2.admin_actions = [] :=
  ⟨rfl, rfl, rfl, rfl⟩

/-! ### Claim C6: cleanupExpiredUsers (server/cleanupExpired.ts) -/

/-- Cleanup mode enum (`CleanupMode`). -/
inductive CleanupMode where
  | deactivate : CleanupMode
  | delete : CleanupMode
deriving DecidableEq, Repr

/-- Result record (`CleanupResult`). -/
structure CleanupResult where
  mode : CleanupMode
  expiredUsers : Nat
  affectedSessions : Nat
deriving DecidableEq, Repr

/-- The SQL predicate `expires_at IS NOT NULL AND expires_at < NOW()` used by
every query of cleanupExpired.ts. Note the strict `<`, unlike the `<=` of
isExpiredAt. -/
def sqlExpired (now : Int) (u : UserRow) : Bool :=
  match u.expires_at with
  | some t => t < now
  | none => false

/-- The subquery `user_id IN (SELECT id FROM users WHERE expires_at IS NOT
NULL AND expires_at < NOW())`. -/
def expiredOwner (db : DB) (now : Int) (uid : Nat) : Bool :=
  db.users.any (fun u => u.id == uid && sqlExpired now u)

/-- Embedding of `cleanupExpiredUsers` (server/cleanupExpired.ts lines
14-52). delete mode: `DELETE FROM users WHERE expired RETURNING id` with
sessions removed by the cascading foreign key, and BOTH result counts set to
the deleted users row count. deactivate mode: flip the active sessions of
expired users to inactive (stamping last_seen), report that update row count
as affectedSessions and the expired-users count separately. -/
def cleanupExpiredUsers (mode : CleanupMode) (db : DB) (now : Int) :
    DB × CleanupResult :=
  match mode with
  | .delete =>
    ({ users := db.users.filter (fun u => !(sqlExpired now u)),
       sessions := db.sessions.filter (fun s => !(expiredOwner db now s.user_id)),
       admin_actions := db.admin_actions },
     { mode := .delete, expiredUsers := db.users.countP (sqlExpired now),
       affectedSessions := db.users.countP (sqlExpired now) })
  | .deactivate =>
    ({ db with sessions := db.sessions.map (fun s =>
         if expiredOwner db now s.user_id && s.is_active then
           { s with is_active := false, last_seen := now }
         else s) },
     { mode := .deactivate,
       expiredUsers := db.users.countP (sqlExpired now),
       affectedSessions :=
         db.sessions.countP (fun s => expiredOwner db now s.user_id && s.is_active) })

/-- Store with user 1 (expiry 10, two active sessions) and user 2
(expiry 20), evaluated at now = 20. -/
def cleanupSampleDb : DB :=
  { users := [
      { id := 1, login := "a", password_hash := "h", role := .user,
        device_id := none, expires_at := some 10, created_at := 0 },
      { id := 2, login := "b", password_hash := "h", role := .user,
        device_id := none, expires_at := some 20, created_at := 0 }],
    sessions := [
      { id := 1, user_id := 1, device_id := "d1", ip := none,
        user_agent := none, login_time := 0, last_seen := 0,
        is_active := true },
      { id := 2, user_id := 1, device_id := "d2", ip := none,
        user_agent := none, login_time := 0, last_seen := 0,
        is_active := true }],
    admin_actions := [] }

/-- C6 counterexample: at now = 20, user 2 has non-null expiry 20 ≤ now yet
survives delete-mode cleanup (the SQL comparison is strict <), and the
cleanup removes the two cascaded sessions of user 1 while reporting
affectedSessions = 1, the count of deleted users — refuting both the
≤-selection and the removed-sessions-count parts of the claim. -/
theorem cleanup_expired_counterexample :
    ((cleanupExpiredUsers .delete cleanupSampleDb 20).1.users.map UserRow.id)
      = [2] ∧
    (cleanupExpiredUsers .delete cleanupSampleDb 20).2.affectedSessions = 1 ∧
    (cleanupExpiredUsers .delete cleanupSampleDb 20).1.sessions = [] ∧
    cleanupSampleDb.sessions.length = 2 :=
  ⟨rfl, rfl, rfl, rfl⟩

/-- C6 as amended: cleanupExpired operates over exactly the users whose
expiry is non-null and strictly earlier than now. deactivate mode keeps the
user rows, reports the number of such users and the number of their active
sessions flipped inactive, and afterwards no session of such a user is
active. delete mode removes exactly those users (sessions cascading) and
reports the deleted-users count in both result fields. -/
theorem cleanup_expired_amended (db : DB) (now : Int) :
    ((cleanupExpiredUsers .delete db now).1.users =
      db.users.filter (fun u => !(sqlExpired now u))) ∧
    ((cleanupExpiredUsers .delete db now).2.expiredUsers =
      (db.users.filter (sqlExpired now)).length) ∧
    ((cleanupExpiredUsers .delete db now).2.affectedSessions =
      (db.users.filter (sqlExpired now)).length) ∧
    ((cleanupExpiredUsers .deactivate db now).1.users = db.users) ∧
    ((cleanupExpiredUsers .deactivate db now).2.expiredUsers =
      (db.users.filter (sqlExpired now)).length) ∧
    ((cleanupExpiredUsers .deactivate db now).2.affectedSessions =
      (db.sessions.filter
        (fun s => expiredOwner db now s.user_id && s.is_active)).length) ∧
    (∀ s ∈ (cleanupExpiredUsers .deactivate db now).1.sessions,
      expiredOwner db now s.user_id = true → s.is_active = false) := by
  refine ⟨rfl, ?_, ?_, rfl, ?_, ?_, ?_⟩
  · exact List.countP_eq_length_filter _ _
  · exact List.countP_eq_length_filter _ _
  · exact List.countP_eq_length_filter _ _
  · exact List.countP_eq_length_filter _ _
  · intro s hs hexp
    simp only [cleanupExpiredUsers, List.mem_map] at hs
    obtain ⟨t, ht, rfl⟩ := hs
    by_cases hc : (expiredOwner db now t.user_id && t.is_active) = true
    · rw [if_pos hc]
    · rw [if_neg hc] at hexp ⊢
      rw [Bool.and_eq_true] at hc
      push_neg at hc
      exact Bool.not_eq_true _ ▸ (hc hexp)

/-- Witness for C6 (amended): on the sample store at now = 20, deactivate
mode reports one expired user and two affected sessions, and the deactivated
first session of the expired user 1 is indeed inactive. -/
theorem cleanup_expired_amended_witness :
    ((cleanupExpiredUsers .deactivate cleanupSampleDb 20).2.affectedSessions =
      (cleanupSampleDb.sessions.filter
        (fun s => expiredOwner cleanupSampleDb 20 s.user_id && s.is_active)).length) ∧
    ({ id := 1, user_id := 1, device_id := "d1", ip := none,
       user_agent := none, login_time := 0, last_seen := 20,
       is_active := false } : SessionRow).is_active = false :=
  ⟨(cleanup_expired_amended cleanupSampleDb 20).2.2.2.2.2.1,
   (cleanup_expired_amended cleanupSampleDb 20).2.2.2.2.2.2
     { id := 1, user_id := 1, device_id := "d1", ip := none,
       user_agent := none, login_time := 0, last_seen := 20,
       is_active := false } (by decide) (by decide)⟩

/-! ### Claim C7: the conditional device bind during Login
(server/index.ts lines 960-990) -/

/-- The row condition of the atomic bind update
`UPDATE users SET device_id = $1 WHERE id = $2 AND device_id IS NULL`. -/
def bindCondition (userId : Nat) (u : UserRow) : Bool :=
  u.id == userId && u.device_id.isNone

/-- The users table after the conditional bind update. -/
def bindDeviceUpdate (users : List UserRow) (userId : Nat)
    (deviceId : String) : List UserRow :=
  users.map (fun u =>
    if bindCondition userId u then { u with device_id := some deviceId }
    else u)

/-- Outcome of the shouldBindDevice block of the login route: proceed with a
user row, or fail with an HTTP status and optional message. -/
inductive BindOutcome where
  | proceed : UserRow → BindOutcome
  | fail : Nat → Option String → BindOutcome
deriving DecidableEq, Repr

/-- Embedding of the shouldBindDevice block of POST /auth/login
(server/index.ts lines 960-990): run the conditional update; when it
affected at least one row continue with the updated row; on zero affected
rows re-read the user, fail 401 when it vanished, fail 403 DEVICE_IN_USE
when the now-current device differs from this request, and otherwise
proceed as already bound to this device. -/
def loginBindPhase (users : List UserRow) (userId : Nat) (deviceId : String) :
    List UserRow × BindOutcome :=
  match users.filter (bindCondition userId) with
  | u :: _ =>
      (bindDeviceUpdate users userId deviceId,
       .proceed { u with device_id := some deviceId })
  | [] =>
    match (bindDeviceUpdate users userId deviceId).find?
        (fun u => u.id == userId) with
    | none => (bindDeviceUpdate users userId deviceId, .fail 401 none)
    | some u =>
      if u.device_id = some deviceId then
        (bindDeviceUpdate users userId deviceId, .proceed u)
      else
        (bindDeviceUpdate users userId deviceId,
         .fail 403 (some DEVICE_IN_USE_MESSAGE))

lemma loginBindPhase_fst (users : List UserRow) (uid : Nat) (did : String) :
    (loginBindPhase users uid did).1 = bindDeviceUpdate users uid did := by
  unfold loginBindPhase
  split
  · rfl
  · split
    · rfl
    · split
      · rfl
      · rfl

lemma loginBindPhase_snd_of_no_match (users : List UserRow) (uid : Nat)
    (did : String) (hfilter : users.filter (bindCondition uid) = [])
    (u : UserRow)
    (hfind : (bindDeviceUpdate users uid did).find? (fun v => v.id == uid) =
      some u) :
    (loginBindPhase users uid did).2 =
      if u.device_id = some did then BindOutcome.proceed u
      else BindOutcome.fail 403 (some DEVICE_IN_USE_MESSAGE) := by
  unfold loginBindPhase
  rw [hfilter]
  dsimp only
  rw [hfind]
  dsimp only
  split <;> rfl

/-- C7: the conditional bind update never overwrites an existing non-null
binding (every row with a bound device passes through unchanged), and when
the update affects zero rows the re-read decides: a differing current device
fails with 403 DEVICE_IN_USE, a matching one proceeds as already bound. -/
theorem login_bind_race_guard (users : List UserRow) (uid : Nat)
    (did : String) :
    (∀ u ∈ users, u.device_id.isSome = true →
      u ∈ (loginBindPhase users uid did).1) ∧
    (users.filter (bindCondition uid) = [] →
      ∀ u : UserRow,
        (loginBindPhase users uid did).1.find? (fun v => v.id == uid) =
          some u →
        (u.device_id ≠ some did →
          (loginBindPhase users uid did).2 =
            .fail 403 (some DEVICE_IN_USE_MESSAGE)) ∧
        (u.device_id = some did →
          (loginBindPhase users uid did).2 = .proceed u)) := by
  constructor
  · intro u hu hsome
    have hcond : bindCondition uid u = false := by
      unfold bindCondition
      rcases h : u.device_id with _ | d
      · rw [h] at hsome
        simp at hsome
      · simp [h]
    rw [loginBindPhase_fst]
    unfold bindDeviceUpdate
    have hfix : (if bindCondition uid u then { u with device_id := some did }
        else u) = u := by
      rw [hcond]
      rfl
    exact hfix ▸ List.mem_map_of_mem _ hu
  · intro hfilter u hfind
    rw [loginBindPhase_fst] at hfind
    have h2 := loginBindPhase_snd_of_no_match users uid did hfilter u hfind
    constructor
    · intro hne
      rw [h2, if_neg hne]
    · intro heq
      rw [h2, if_pos heq]

/-- User 7 already bound to device-A, used to exercise the losing branch of
the bind race. -/
def raceSampleUser : UserRow :=
  { id := 7, login := "bob", password_hash := "h", role := .user,
    device_id := some "device-A", expires_at := none, created_at := 0 }

/-- Witness for C7: on a store where user 7 is bound to device-A, a bind
attempt from device-B affects zero rows and fails 403 DEVICE_IN_USE, and
the bound row passes through the update unchanged. -/
theorem login_bind_race_guard_witness :
    raceSampleUser ∈ (loginBindPhase [raceSampleUser] 7 "device-B").1 ∧
    (loginBindPhase [raceSampleUser] 7 "device-B").2 =
      .fail 403 (some DEVICE_IN_USE_MESSAGE) :=
  ⟨(login_bind_race_guard [raceSampleUser] 7 "device-B").1 raceSampleUser
      (by decide) rfl,
   ((login_bind_race_guard [raceSampleUser] 7 "device-B").2 rfl raceSampleUser
      rfl).1 (by decide)⟩

/-! ### Claim C8: the session self-deletion guard
(server/index.ts lines 1358-1400) -/

/-- The verified bearer token payload (`AuthPayload` in server/auth.ts). -/
structure AuthPayload where
  userId : Nat
  role : Role
  deviceId : String
  sessionId : Nat
deriving DecidableEq, Repr

/-- Embedding of DELETE /admin/sessions/:id (server/index.ts lines
1358-1400), from the point where the id has parsed: reject 400 when the
target equals the session of the requesting token, else delete the row (404
when absent) and log the action. -/
def deleteSessionRoute (db : DB) (now : Int) (auth : AuthPayload)
    (sessionId : Nat) : Nat × DB :=
  if auth.sessionId == sessionId then (400, db)
  else
    match db.sessions.find? (fun s => s.id == sessionId) with
    | none => (404, db)
    | some s =>
      (200, logAdminAction
        { db with sessions := db.sessions.filter (fun t => !(t.id == sessionId)) }
        now auth.userId "delete_session" (some s.user_id)
        (some ("session_id=" ++ toString sessionId)))

/-- C8: whenever the targeted session id equals the session id embedded in
the requesting token, the route answers 400 and the store is returned
untouched — the session row is still present and active, and the deletion
query is never reached. -/
theorem delete_session_self_guard (db : DB) (now : Int) (auth : AuthPayload)
    (sid : Nat) (h : sid = auth.sessionId) :
    deleteSessionRoute db now auth sid = (400, db) := by
  subst h
  unfold deleteSessionRoute
  rw [if_pos (by simp)]

/-- Store with one active admin session (id 9), used for the self-deletion
guard. -/
def selfGuardSampleDb : DB :=
  { users := [
      { id := 1, login := "root", password_hash := "h", role := .admin,
        device_id := none, expires_at := none, created_at := 0 }],
    sessions := [
      { id := 9, user_id := 1, device_id := "adm", ip := none,
        user_agent := none, login_time := 0, last_seen := 0,
        is_active := true }],
    admin_actions := [] }

/-- Witness for C8: an admin authenticated through session 9 asking to
delete session 9 gets 400 and an unchanged store. -/
theorem delete_session_self_guard_witness :
    deleteSessionRoute selfGuardSampleDb 5
      { userId := 1, role := .admin, deviceId := "adm", sessionId := 9 } 9 =
      (400, selfGuardSampleDb) :=
  delete_session_self_guard selfGuardSampleDb 5
    { userId := 1, role := .admin, deviceId := "adm", sessionId := 9 } 9 rfl

/-! ### Claim C9: resetDevice clears the binding, deactivates sessions, and
is idempotent (server/index.ts lines 1150-1198) -/

/-- Embedding of POST /admin/users/:id/reset-device: 404 when the user does
not exist; otherwise clear its device binding to null, flip its currently
active sessions to inactive (stamping last_seen) and log the action. -/
def resetDeviceRoute (db : DB) (now : Int) (adminUserId : Nat)
    (userId : Nat) : Nat × DB :=
  if db.users.any (fun u => u.id == userId) then
    (200, logAdminAction
      { users := db.users.map (fun u =>
          if u.id == userId then { u with device_id := none } else u),
        sessions := db.sessions.map (fun s =>
          if s.user_id == userId && s.is_active then
            { s with is_active := false, last_seen := now }
          else s),
        admin_actions := db.admin_actions }
      now adminUserId "reset_device" (some userId) none)
  else (404, db)

/-- The store state after the reset-device route. -/
def afterReset (db : DB) (now : Int) (adminUserId userId : Nat) : DB :=
  (resetDeviceRoute db now adminUserId userId).2

lemma afterReset_users (db : DB) (now : Int) (adminUserId uid : Nat)
    (hex : db.users.any (fun u => u.id == uid) = true) :
    (afterReset db now adminUserId uid).users =
      db.users.map (fun u =>
        if u.id == uid then { u with device_id := none } else u) := by
  unfold afterReset resetDeviceRoute
  rw [if_pos hex]
  dsimp only
  rw [logAdminAction_users]

lemma afterReset_sessions (db : DB) (now : Int) (adminUserId uid : Nat)
    (hex : db.users.any (fun u => u.id == uid) = true) :
    (afterReset db now adminUserId uid).sessions =
      db.sessions.map (fun s =>
        if s.user_id == uid && s.is_active then
          { s with is_active := false, last_seen := now }
        else s) := by
  unfold afterReset resetDeviceRoute
  rw [if_pos hex]
  dsimp only
  rw [logAdminAction_sessions]

lemma list_map_fixed {α : Type} (l : List α) (f : α → α)
    (h : ∀ a ∈ l, f a = a) : l.map f = l := by
  induction l with
  | nil => rfl
  | cons x xs ih =>
    rw [List.map_cons, h x (List.mem_cons_self x xs),
      ih (fun a ha => h a (List.mem_cons_of_mem x ha))]

/-- C9: after resetDevice the user carries no device binding and none of its
sessions is active, and running resetDevice again (at any later time, by any
admin) leaves the users and sessions tables exactly as after the first run:
the second run is a no-op for the device field and finds no active session
left to deactivate. -/
theorem reset_device_idempotent (db : DB) (now1 now2 : Int)
    (admin1 admin2 uid : Nat)
    (hex : db.users.any (fun u => u.id == uid) = true) :
    (∀ u ∈ (afterReset db now1 admin1 uid).users,
      u.id = uid → u.device_id = none) ∧
    (∀ s ∈ (afterReset db now1 admin1 uid).sessions,
      s.user_id = uid → s.is_active = false) ∧
    ((afterReset (afterReset db now1 admin1 uid) now2 admin2 uid).users =
      (afterReset db now1 admin1 uid).users) ∧
    ((afterReset (afterReset db now1 admin1 uid) now2 admin2 uid).sessions =
      (afterReset db now1 admin1 uid).sessions) := by
  have hu1 := afterReset_users db now1 admin1 uid hex
  have hs1 := afterReset_sessions db now1 admin1 uid hex
  have part1 : ∀ u ∈ (afterReset db now1 admin1 uid).users,
      u.id = uid → u.device_id = none := by
    intro u hu hid
    rw [hu1, List.mem_map] at hu
    obtain ⟨t, ht, rfl⟩ := hu
    by_cases hc : (t.id == uid) = true
    · rw [if_pos hc]
    · rw [if_neg hc] at hid
      exact absurd (by simp [hid]) hc
  have part2 : ∀ s ∈ (afterReset db now1 admin1 uid).sessions,
      s.user_id = uid → s.is_active = false := by
    intro s hs hsid
    rw [hs1, List.mem_map] at hs
    obtain ⟨t, ht, rfl⟩ := hs
    by_cases hc : (t.user_id == uid && t.is_active) = true
    · rw [if_pos hc]
    · rw [if_neg hc] at hsid ⊢
      rw [Bool.and_eq_true] at hc
      have hbeq : (t.user_id == uid) = true := by simp [hsid]
      cases hact : t.is_active
      · rfl
      · exact absurd ⟨hbeq, hact⟩ hc
  have hex2 : (afterReset db now1 admin1 uid).users.any
      (fun u => u.id == uid) = true := by
    rw [hu1]
    rcases List.any_eq_true.mp hex with ⟨u, hu, hp⟩
    refine List.any_eq_true.mpr ⟨_, List.mem_map_of_mem _ hu, ?_⟩
    by_cases hc : (u.id == uid) = true
    · rw [if_pos hc]
      exact hc
    · rw [if_neg hc]
      exact hp
  have hu2 := afterReset_users (afterReset db now1 admin1 uid) now2 admin2
    uid hex2
  have hs2 := afterReset_sessions (afterReset db now1 admin1 uid) now2 admin2
    uid hex2
  refine ⟨part1, part2, ?_, ?_⟩
  · rw [hu2]
    apply list_map_fixed
    intro a ha
    by_cases hc : (a.id == uid) = true
    · rw [if_pos hc]
      have hdev := part1 a ha (by simpa using hc)
      rcases a with ⟨aid, alog, aph, arole, adev, aexp, acr⟩
      simp only at hdev
      rw [hdev]
    · rw [if_neg hc]
  · rw [hs2]
    apply list_map_fixed
    intro s hs'
    by_cases hc : (s.user_id == uid && s.is_active) = true
    · rw [Bool.and_eq_true] at hc
      have hfalse := part2 s hs' (by simpa using hc.1)
      rw [hfalse] at hc
      exact absurd hc.2 Bool.false_ne_true
    · rw [if_neg hc]

/-- Store with user 3 bound to device X and one active session, used for the
reset-device idempotence witness. -/
def resetSampleDb : DB :=
  { users := [
      { id := 3, login := "eva", password_hash := "h", role := .user,
        device_id := some "X", expires_at := none, created_at := 0 }],
    sessions := [
      { id := 11, user_id := 3, device_id := "X", ip := none,
        user_agent := none, login_time := 0, last_seen := 0,
        is_active := true }],
    admin_actions := [] }

/-- Witness for C9: two reset-device runs on the sample store (at times 10
and 20) leave the same users and sessions tables as the first run alone. -/
theorem reset_device_idempotent_witness :
    ((afterReset (afterReset resetSampleDb 10 1 3) 20 1 3).users =
      (afterReset resetSampleDb 10 1 3).users) ∧
    ((afterReset (afterReset resetSampleDb 10 1 3) 20 1 3).sessions =
      (afterReset resetSampleDb 10 1 3).sessions) :=
  ⟨(reset_device_idempotent resetSampleDb 10 20 1 1 3 (by decide)).2.2.1,
   (reset_device_idempotent resetSampleDb 10 20 1 1 3 (by decide)).2.2.2⟩

end IMG
